import Mathlib

/-! # Migration Session Controller (the Migrator component)

Shallow embedding of the `Migrator` React functional component (the
migration session controller of the DAO-creation wizard) together with the
callback bundle it hands to the external migration engine.

Modelling choices:
* Each React `useState` cell becomes a field of `MigratorComp`; a state
  setter is a functional update of that field.  All updates happen on the
  single UI event loop, so operations are plain functions on the state.
* Browser facilities are explicit: `window.onbeforeunload` is the boolean
  `World.guard` (whether a handler returning a warning string is
  installed), `localStorage` is an association list of string keys to
  stored values, and the console is a list of printed items.
* Host notifications (the component props `onStart`, `onComplete`,
  `onAbort`, `onStop`) and the external engine invocation `migrateDAO` are
  recorded as an ordered event trace, in the order the component issues
  them.
* `getWeb3` is external; its outcome (an exception, a null result, or a
  provider) is passed to `startInstallation` as an argument.
* `JSON.stringify` / `JSON.parse` are browser builtins external to this
  repository whose contract on JSON-serializable values is an identity
  round-trip, so durable storage is modelled as holding the parsed value.
-/

namespace Migrator

/-- TS numeric enum `STEP`: values are numbers (`Waiting = 0`,
`Migrating = 1`, `Completed = 2`, `Failed = 3`; the `Creating` and
`Configuring` members are commented out in the source), which is what makes
the numeric `step++` in `nextStep` well typed. -/
def STEP.Waiting : Nat := 0

/-- TS enum member `STEP.Migrating`. -/
def STEP.Migrating : Nat := 1

/-- TS enum member `STEP.Completed`. -/
def STEP.Completed : Nat := 2

/-- TS enum member `STEP.Failed`. -/
def STEP.Failed : Nat := 3

/-- JSON values, as produced by the browser's `JSON` object. -/
inductive Json
| null
| bool (b : Bool)
| num (q : ℚ)
| str (s : String)
| arr (items : List Json)
| obj (fields : List (String × Json))

/-- A thrown JS `Error`, identified by its message. -/
structure JsError where
  message : String
deriving DecidableEq

/-- Opaque `DAOMigrationResult` handed over by the external migration
library; the component never inspects it. -/
structure DAOMigrationResult where
  tag : Nat
deriving DecidableEq

/-- Opaque `Web3` provider instance as resolved by `getWeb3`. -/
structure Web3 where
  id : Nat
deriving DecidableEq

/-- Log line variants (the `LogLineTypes` classes): `LogUserApproval`,
`LogInfo`, `LogError`, `LogTransactionResult`, `LogMigrationAborted`.  The
user-approval resolver callback is not part of the value model. -/
inductive AnyLogLine
| UserApproval (msg : String)
| Info (msg : String)
| Error (msg : String)
| TransactionResult (msg txHash : String) (txCost : ℚ)
| MigrationAborted (err : JsError)
deriving DecidableEq

/-- Host notifications (component props) and the engine invocation. -/
inductive Event
| onStart
| onComplete (r : DAOMigrationResult)
| onAbort (e : JsError)
| onStop
| migrateDAOCall
deriving DecidableEq

/-- One entry written to the browser console: a plain string or a log-line
object (see `addLogLine`). -/
inductive ConsoleItem
| str (s : String)
| line (l : AnyLogLine)
deriving DecidableEq

/-- The component's `useState` cells: `step`, `txList`, `noWeb3Open`,
`fullLogLines`, `minimalLogLines`, `ethSpent`, `result`, and the unused
`state` cell kept for local storage. -/
structure MigratorComp where
  step : Nat
  txList : List (String × Json)
  noWeb3Open : Bool
  fullLogLines : List AnyLogLine
  minimalLogLines : List AnyLogLine
  ethSpent : ℚ
  result : Option DAOMigrationResult
  state : Json

/-- The component state together with its browser environment and the
outward-visible calls it makes. -/
structure World where
  comp : MigratorComp
  guard : Bool
  storage : List (String × Json)
  events : List Event
  console : List ConsoleItem

/-- `console.log` of a plain string. -/
def consoleLogStr (w : World) (s : String) : World :=
  { w with console := w.console ++ [ConsoleItem.str s] }

/-- Issue one host notification or engine call. -/
def emit (w : World) (e : Event) : World :=
  { w with events := w.events ++ [e] }

/-- `localStorage.setItem`: overwrite the binding for `key`. -/
def setItem (st : List (String × Json)) (key : String) (v : Json) :
    List (String × Json) :=
  match st with
  | [] => [(key, v)]
  | (k, u) :: rest =>
      if k = key then (key, v) :: rest else (k, u) :: setItem rest key v

/-- `localStorage.getItem`: the stored value, or `none` (JS `null`). -/
def getItem (st : List (String × Json)) (key : String) : Option Json :=
  match st with
  | [] => none
  | (k, u) :: rest => if k = key then some u else getItem rest key

/-- `localStorage.removeItem`. -/
def removeItem (st : List (String × Json)) (key : String) :
    List (String × Json) :=
  match st with
  | [] => []
  | (k, u) :: rest =>
      if k = key then removeItem rest key else (k, u) :: removeItem rest key

/-- The fixed local-storage key used by the checkpoint callbacks. -/
def DAO_MIGRATION_STATE : String := "DAO_MIGRATION_STATE"

/-- `resetState`: `setStep(STEP.Waiting)`, `setTxList(\x7b\x7d)`,
`setNoWeb3Open(false)` — nothing else is touched. -/
def resetState (w : World) : World :=
  { w with comp :=
      { w.comp with step := STEP.Waiting, txList := [], noWeb3Open := false } }

/-- JS post-increment on a numeric variable: the expression `x++` evaluates
to the old value of `x`, and the incremented value is stored back into the
variable.  Returned as (expression value, updated variable). -/
def postIncrement (x : Nat) : Nat × Nat := (x, x + 1)

/-- `nextStep`: logs, then `setStep(step => step++)`.  The updater's result
is the value of the expression `step++`, i.e. the pre-increment value; the
increment hits only the updater's local parameter, which is discarded. -/
def nextStep (w : World) : World :=
  let w1 := consoleLogStr w "Go to next step"
  { w1 with comp := { w1.comp with step := (postIncrement w1.comp.step).1 } }

/-- `addLogLine`: despite its name, its body is only `console.log(logLine)`;
no `setFullLogLines` or `setMinimalLogLines` call occurs. -/
def addLogLine (w : World) (logLine : AnyLogLine) : World :=
  { w with console := w.console ++ [ConsoleItem.line logLine] }

/-- Callback `userApproval`: the promise executor runs synchronously and
hands a `LogUserApproval` line (message plus resolver) to `addLogLine`. -/
def userApproval (w : World) (msg : String) : World :=
  addLogLine w (AnyLogLine.UserApproval msg)

/-- Callback `info`. -/
def info (w : World) (msg : String) : World :=
  addLogLine w (AnyLogLine.Info msg)

/-- Callback `error`. -/
def error (w : World) (msg : String) : World :=
  addLogLine w (AnyLogLine.Error msg)

/-- Callback `txComplete`: `setEthSpent(ethSpent => ethSpent += Number(txCost))`
adds the cost (the `+=` expression returns the updated value), then the
`LogTransactionResult` line goes to `addLogLine` and the promise resolves. -/
def txComplete (w : World) (msg txHash : String) (txCost : ℚ) : World :=
  let w1 := { w with comp := { w.comp with ethSpent := w.comp.ethSpent + txCost } }
  addLogLine w1 (AnyLogLine.TransactionResult msg txHash txCost)

/-- Callback `migrationAborted`: log line, `onAbort(err)`,
`setStep(STEP.Failed)`, `onStop()`.  Note the `window.onbeforeunload` guard
is not touched here. -/
def migrationAborted (w : World) (err : JsError) : World :=
  let w1 := addLogLine w (AnyLogLine.MigrationAborted err)
  let w2 := emit w1 (Event.onAbort err)
  let w3 := { w2 with comp := { w2.comp with step := STEP.Failed } }
  emit w3 Event.onStop

/-- Callback `migrationComplete`: replace the unload handler by one
returning `undefined` (uninstalling the warning), `setResult(result)`,
`setStep(STEP.Completed)`, then `onComplete(result)` and `onStop()`. -/
def migrationComplete (w : World) (r : DAOMigrationResult) : World :=
  let w1 := { w with guard := false }
  let w2 := { w1 with comp :=
      { w1.comp with result := some r, step := STEP.Completed } }
  emit (emit w2 (Event.onComplete r)) Event.onStop

/-- Callback `getState`: `JSON.parse` of the blob stored under the fixed
key, or the empty object when `getItem` returns null (or empty, falsy). -/
def getState (w : World) : Json :=
  match getItem w.storage DAO_MIGRATION_STATE with
  | some localState => localState
  | none => Json.obj []

/-- Callback `setState`: persist `JSON.stringify` of the blob under the
fixed key. -/
def setState (w : World) (st : Json) : World :=
  { w with storage := setItem w.storage DAO_MIGRATION_STATE st }

/-- Callback `cleanState`: delete the stored blob. -/
def cleanState (w : World) : World :=
  { w with storage := removeItem w.storage DAO_MIGRATION_STATE }

/-- The value of `await getWeb3()` as seen at the `if (!web3)` check: an
exception leaves `web3` undefined (the exception itself is caught and
logged), and a resolved value may itself be null/undefined (falsy). -/
def web3Of : Except String (Option Web3) → Option Web3
  | Except.ok v => v
  | Except.error _ => none

/-- `startInstallation`: logs, returns early unless `step == STEP.Waiting`;
then resolves the provider (`getWeb3Result` is the outcome of the external
`getWeb3()` call).  A caught exception is logged; a falsy `web3` sets
`noWeb3Open` and returns.  Otherwise: install the unload warning, clear
both log-line lists, notify `onStart`, reset `result`, move to
`STEP.Migrating`, and invoke `migrateDAO` (fire and forget). -/
def startInstallation (w : World) (getWeb3Result : Except String (Option Web3)) :
    World :=
  let w0 := consoleLogStr w "Starting Installation"
  if w0.comp.step ≠ STEP.Waiting then w0
  else
    let w1 := match getWeb3Result with
      | Except.ok _ => w0
      | Except.error e => consoleLogStr w0 e
    match web3Of getWeb3Result with
    | none => { w1 with comp := { w1.comp with noWeb3Open := true } }
    | some _ =>
      let w2 := { w1 with guard := true }
      let w3 := { w2 with comp :=
          { w2.comp with fullLogLines := [], minimalLogLines := [] } }
      let w4 := emit w3 Event.onStart
      let w5 := { w4 with comp :=
          { w4.comp with result := none, step := STEP.Migrating } }
      emit w5 Event.migrateDAOCall

/-- The component's initial state: the `useState` defaults. -/
def initComp : MigratorComp :=
  { step := STEP.Waiting, txList := [], noWeb3Open := false,
    fullLogLines := [], minimalLogLines := [], ethSpent := 0,
    result := none, state := Json.obj [] }

/-- A fresh world: initial component, no unload guard, empty storage. -/
def initWorld : World :=
  { comp := initComp, guard := false, storage := [], events := [], console := [] }

/-- One engine-issued invocation of a non-terminal logging callback. -/
inductive CbCall
| info (msg : String)
| error (msg : String)
| userApproval (msg : String)
| txComplete (msg txHash : String) (txCost : ℚ)
deriving DecidableEq

/-- Dispatch one callback invocation to the component. -/
def applyCall (w : World) : CbCall → World
  | CbCall.info msg => info w msg
  | CbCall.error msg => error w msg
  | CbCall.userApproval msg => userApproval w msg
  | CbCall.txComplete msg txHash txCost => txComplete w msg txHash txCost

/-- Run a sequence of callback invocations in order. -/
def runCalls (w : World) : List CbCall → World
  | [] => w
  | c :: rest => runCalls (applyCall w c) rest

/-- The cost contributed by one callback invocation. -/
def costOf : CbCall → ℚ
  | CbCall.txComplete _ _ txCost => txCost
  | _ => 0

/-- A sample resolved provider. -/
def web3Sample : Web3 := ⟨0⟩

/-- A session immediately after a successful `startInstallation`. -/
def migratingWorld : World :=
  startInstallation initWorld (Except.ok (some web3Sample))

/-! ## General lemmas -/

/-- Printing to the console leaves the component state untouched. -/
theorem consoleLogStr_comp (w : World) (s : String) :
    (consoleLogStr w s).comp = w.comp := rfl

/-- `addLogLine` writes only to the console. -/
theorem addLogLine_comp (w : World) (l : AnyLogLine) :
    (addLogLine w l).comp = w.comp := rfl

/-- No logging callback ever touches the full log-line list. -/
theorem applyCall_fullLogLines (w : World) (c : CbCall) :
    (applyCall w c).comp.fullLogLines = w.comp.fullLogLines := by
  cases c <;>
    simp [applyCall, info, error, userApproval, txComplete, addLogLine]

/-- One callback invocation adds exactly its cost to `ethSpent`. -/
theorem applyCall_ethSpent (w : World) (c : CbCall) :
    (applyCall w c).comp.ethSpent = w.comp.ethSpent + costOf c := by
  cases c <;>
    simp [applyCall, info, error, userApproval, txComplete, addLogLine, costOf]

/-- Read-after-write on the storage association list. -/
theorem getItem_setItem (st : List (String × Json)) (key : String) (v : Json) :
    getItem (setItem st key v) key = some v := by
  induction st with
  | nil => simp [setItem, getItem]
  | cons kv rest ih =>
      obtain ⟨k, u⟩ := kv
      by_cases h : k = key
      · simp [setItem, getItem, h]
      · simp [setItem, getItem, h, ih]

/-- Read-after-remove on the storage association list. -/
theorem getItem_removeItem (st : List (String × Json)) (key : String) :
    getItem (removeItem st key) key = none := by
  induction st with
  | nil => simp [removeItem, getItem]
  | cons kv rest ih =>
      obtain ⟨k, u⟩ := kv
      by_cases h : k = key
      · simp [removeItem, h, ih]
      · simp [removeItem, getItem, h, ih]

/-! ## Claim theorems -/

/-- C1: evaluation at the failing input.  After a successfully started
migration, a single `info` callback leaves the session's full log-line
sequence empty (length 0, where the claim expects length 1 with an `Info`
entry): `addLogLine` only writes to the console and never appends to
`fullLogLines`. -/
theorem C1_info_leaves_fullLogLines_empty :
    (info migratingWorld "Migrating DAO").comp.fullLogLines = [] := rfl

/-- C2: when the phase is not `Waiting`, `startInstallation` changes no
component state (in particular appends and clears no log lines), emits no
host notification and no engine invocation, and touches neither the unload
guard nor durable storage — only a console line is printed. -/
theorem C2_start_noop_when_not_waiting (w : World)
    (res : Except String (Option Web3)) (h : w.comp.step ≠ STEP.Waiting) :
    (startInstallation w res).comp = w.comp ∧
    (startInstallation w res).events = w.events ∧
    (startInstallation w res).guard = w.guard ∧
    (startInstallation w res).storage = w.storage := by
  unfold startInstallation
  simp only [consoleLogStr_comp]
  rw [if_pos h]
  exact ⟨rfl, rfl, rfl, rfl⟩

/-- C2 witness: a second `startInstallation` while the session is
`Migrating` changes nothing observable but the console. -/
theorem C2_witness :
    migratingWorld.comp.step ≠ STEP.Waiting ∧
    ((startInstallation migratingWorld (Except.ok (some web3Sample))).comp =
        migratingWorld.comp ∧
      (startInstallation migratingWorld (Except.ok (some web3Sample))).events =
        migratingWorld.events ∧
      (startInstallation migratingWorld (Except.ok (some web3Sample))).guard =
        migratingWorld.guard ∧
      (startInstallation migratingWorld (Except.ok (some web3Sample))).storage =
        migratingWorld.storage) :=
  ⟨by decide,
    C2_start_noop_when_not_waiting migratingWorld
      (Except.ok (some web3Sample)) (by decide)⟩

/-- C3: with phase `Waiting`, a failed provider resolution (an exception
from `getWeb3` or a null result) sets `noWeb3Open` to true, changes
nothing else in the component — in particular the phase stays `Waiting` —
and emits no engine invocation. -/
theorem C3_no_provider (w : World) (res : Except String (Option Web3))
    (hw : w.comp.step = STEP.Waiting) (hres : web3Of res = none) :
    (startInstallation w res).comp = { w.comp with noWeb3Open := true } ∧
    (startInstallation w res).comp.step = STEP.Waiting ∧
    (startInstallation w res).events = w.events ∧
    (startInstallation w res).guard = w.guard ∧
    (startInstallation w res).storage = w.storage := by
  unfold startInstallation
  simp only [consoleLogStr_comp]
  rw [if_neg (by simp [hw])]
  cases res with
  | ok v =>
      simp only [web3Of] at hres
      subst hres
      exact ⟨by simp [consoleLogStr, web3Of, hw],
        by simp [consoleLogStr, web3Of, hw], rfl, rfl, rfl⟩
  | error e =>
      exact ⟨by simp [consoleLogStr, web3Of, hw],
        by simp [consoleLogStr, web3Of, hw], rfl, rfl, rfl⟩

/-- C3 witness: at the initial world, an exception from `getWeb3` flags
the missing provider and leaves the phase at `Waiting`. -/
theorem C3_witness :
    initWorld.comp.step = STEP.Waiting ∧
    web3Of (Except.error "no ethereum provider") = none ∧
    ((startInstallation initWorld (Except.error "no ethereum provider")).comp =
        { initWorld.comp with noWeb3Open := true } ∧
      (startInstallation initWorld (Except.error "no ethereum provider")).comp.step =
        STEP.Waiting ∧
      (startInstallation initWorld (Except.error "no ethereum provider")).events =
        initWorld.events ∧
      (startInstallation initWorld (Except.error "no ethereum provider")).guard =
        initWorld.guard ∧
      (startInstallation initWorld (Except.error "no ethereum provider")).storage =
        initWorld.storage) :=
  ⟨rfl, rfl,
    C3_no_provider initWorld (Except.error "no ethereum provider") rfl rfl⟩

/-- C4: over any interleaving of `info` / `error` / `userApproval` /
`txComplete` callback invocations, `ethSpent` grows by exactly the sum of
the `txComplete` costs, and when every cost is non-negative it never
decreases. -/
theorem C4_ethSpent_sum (w : World) (calls : List CbCall) :
    (runCalls w calls).comp.ethSpent = w.comp.ethSpent + (calls.map costOf).sum ∧
    ((∀ c ∈ calls, 0 ≤ costOf c) →
      w.comp.ethSpent ≤ (runCalls w calls).comp.ethSpent) := by
  have hsum : ∀ (w : World) (calls : List CbCall),
      (runCalls w calls).comp.ethSpent =
        w.comp.ethSpent + (calls.map costOf).sum := by
    intro w calls
    induction calls generalizing w with
    | nil => simp [runCalls]
    | cons c rest ih =>
        rw [runCalls, ih, applyCall_ethSpent]
        simp [add_assoc]
  refine ⟨hsum w calls, fun h => ?_⟩
  rw [hsum w calls]
  have : 0 ≤ (calls.map costOf).sum :=
    List.sum_nonneg (by
      intro q hq
      obtain ⟨c, hc, rfl⟩ := List.mem_map.mp hq
      exact h c hc)
  linarith

/-- A sample interleaving of callback invocations. -/
def sampleCalls : List CbCall :=
  [CbCall.info "a", CbCall.txComplete "tx1" "0xaaa" 1,
    CbCall.error "b", CbCall.userApproval "ok?",
    CbCall.txComplete "tx2" "0xbbb" 2]

/-- C4 witness: instantiated at a started session and a concrete
interleaving with non-negative costs. -/
theorem C4_witness :
    (∀ c ∈ sampleCalls, 0 ≤ costOf c) ∧
    ((runCalls migratingWorld sampleCalls).comp.ethSpent =
        migratingWorld.comp.ethSpent + (sampleCalls.map costOf).sum ∧
      ((∀ c ∈ sampleCalls, 0 ≤ costOf c) →
        migratingWorld.comp.ethSpent ≤
          (runCalls migratingWorld sampleCalls).comp.ethSpent)) :=
  ⟨by decide, C4_ethSpent_sum migratingWorld sampleCalls⟩

/-- A started session that the engine then aborts. -/
def abortedWorld : World := migrationAborted migratingWorld ⟨"revert"⟩

/-- C5 counterexample: after a started migration aborts, the leave-page
guard is still installed and no `MigrationAborted` entry was appended to
the session's log-line sequence, contradicting the claim on both counts. -/
theorem C5_counterexample :
    abortedWorld.guard = true ∧ abortedWorld.comp.fullLogLines = [] :=
  ⟨rfl, rfl⟩

/-- C5 amended: `migrationAborted(err)` writes the `MigrationAborted` line
to the console only (the session's log-line sequence is unchanged), leaves
the leave-page guard untouched, sets the phase to `Failed`, and notifies
the host with `onAbort(err)` followed by `onStop()`, exactly once each. -/
theorem C5_migrationAborted_behavior (w : World) (err : JsError) :
    (migrationAborted w err).console =
      w.console ++ [ConsoleItem.line (AnyLogLine.MigrationAborted err)] ∧
    (migrationAborted w err).guard = w.guard ∧
    (migrationAborted w err).comp.step = STEP.Failed ∧
    (migrationAborted w err).comp.fullLogLines = w.comp.fullLogLines ∧
    (migrationAborted w err).events =
      w.events ++ [Event.onAbort err, Event.onStop] ∧
    (migrationAborted w err).storage = w.storage := by
  simp [migrationAborted, addLogLine, emit]

/-- C6: `migrationComplete(result)` uninstalls the leave-page guard,
stores the result, sets the phase to `Completed`, and notifies the host
with `onComplete(result)` followed by `onStop()`, exactly once each,
leaving storage and the accumulated cost unchanged. -/
theorem C6_migrationComplete_behavior (w : World) (r : DAOMigrationResult) :
    (migrationComplete w r).guard = false ∧
    (migrationComplete w r).comp.result = some r ∧
    (migrationComplete w r).comp.step = STEP.Completed ∧
    (migrationComplete w r).events =
      w.events ++ [Event.onComplete r, Event.onStop] ∧
    (migrationComplete w r).storage = w.storage ∧
    (migrationComplete w r).comp.ethSpent = w.comp.ethSpent := by
  simp [migrationComplete, emit]

/-- A session driven to the terminal phase `Completed`. -/
def completedWorld : World := migrationComplete migratingWorld ⟨1⟩

/-- C7 counterexample: with the session already in the terminal phase
`Completed`, a `migrationAborted` invocation moves the phase to `Failed`
(so the terminal phase is not preserved and the move is not a reset to
`Waiting`), and a repeated `migrationComplete` appends its host
notifications a second time. -/
theorem C7_counterexample :
    completedWorld.comp.step = STEP.Completed ∧
    (migrationAborted completedWorld ⟨"late"⟩).comp.step = STEP.Failed ∧
    STEP.Failed ≠ STEP.Completed ∧
    (migrationComplete completedWorld ⟨1⟩).events =
      completedWorld.events ++ [Event.onComplete ⟨1⟩, Event.onStop] :=
  ⟨rfl, rfl, by decide, rfl⟩

/-- C7 amended: the terminal callbacks are unguarded — whatever the current
phase, `migrationComplete` always sets `Completed` and appends its host
notifications, and `migrationAborted` always sets `Failed` and appends its
host notifications, so a repeat or cross call after a terminal phase
re-transitions and re-notifies; `resetState` is the transition back to
`Waiting`. -/
theorem C7_terminal_callbacks_unguarded (w : World) (r : DAOMigrationResult)
    (err : JsError) :
    (migrationComplete w r).comp.step = STEP.Completed ∧
    (migrationComplete w r).events =
      w.events ++ [Event.onComplete r, Event.onStop] ∧
    (migrationAborted w err).comp.step = STEP.Failed ∧
    (migrationAborted w err).events =
      w.events ++ [Event.onAbort err, Event.onStop] ∧
    (resetState w).comp.step = STEP.Waiting := by
  simp [migrationComplete, migrationAborted, resetState, emit, addLogLine]

/-- C8: checkpoint round-trip: `setState` with a blob followed by
`getState` returns that very blob, and `cleanState` followed by `getState`
returns the empty object. -/
theorem C8_checkpoint_roundtrip (w : World) (blob : Json) :
    getState (setState w blob) = blob ∧
    getState (cleanState w) = Json.obj [] := by
  constructor
  · simp [getState, setState, getItem_setItem]
  · simp [getState, cleanState, getItem_removeItem]

/-- A session state carrying one `Info` log line and a stored checkpoint. -/
def loggedWorld : World :=
  { comp := { initComp with fullLogLines := [AnyLogLine.Info "x"] },
    guard := false, storage := [(DAO_MIGRATION_STATE, Json.obj [])],
    events := [], console := [] }

/-- C9 counterexample: `resetState` does not clear the log lines — on a
session whose log holds one `Info` line, that log is unchanged (and in
particular non-empty) afterwards. -/
theorem C9_counterexample :
    (resetState loggedWorld).comp.fullLogLines = [AnyLogLine.Info "x"] ∧
    [AnyLogLine.Info "x"] ≠ ([] : List AnyLogLine) :=
  ⟨rfl, by decide⟩

/-- C9 amended: `resetState` returns the phase to `Waiting`, empties the
transaction list and clears the provider-unavailable flag, while leaving
the log lines, the accumulated cost, the result, the leave-page guard and
the durable checkpoint storage unchanged. -/
theorem C9_resetState_behavior (w : World) :
    (resetState w).comp.step = STEP.Waiting ∧
    (resetState w).comp.txList = [] ∧
    (resetState w).comp.noWeb3Open = false ∧
    (resetState w).comp.fullLogLines = w.comp.fullLogLines ∧
    (resetState w).comp.minimalLogLines = w.comp.minimalLogLines ∧
    (resetState w).comp.ethSpent = w.comp.ethSpent ∧
    (resetState w).comp.result = w.comp.result ∧
    (resetState w).guard = w.guard ∧
    (resetState w).storage = w.storage := by
  simp [resetState]

/-- C10: `nextStep` never changes the phase: the `step => step++` updater
returns the pre-increment value of `step`, so any number of `nextStep`
invocations leaves `step` exactly where it was. -/
theorem C10_nextStep_never_advances (w : World) (n : Nat) :
    (nextStep^[n] w).comp.step = w.comp.step := by
  induction n generalizing w with
  | zero => rfl
  | succ k ih =>
      rw [Function.iterate_succ_apply, ih]
      simp [nextStep, postIncrement, consoleLogStr]

end Migrator
